import Mathlib

/-!
Verification of the positional DataList decoding framework of
`pyoekoboxonline` (file `src/pyoekoboxonline/models.py`).

The development shallowly embeds the decoder:
  * `JVal` models the JSON-derived Python values flowing through the
    decoder (plus decoded `datetime` objects);
  * `from_data_list_entry` models `DataListModel.from_data_list_entry`;
  * `parse_data_list_response` models the batch dispatcher of the same
    name, parameterised by the registry (the Python function closes over
    the module-level `MODEL_REGISTRY` dictionary);
  * `groupSchema` and `positionSchema` transcribe the dataclass field
    declarations of the `Group` and `Position` model classes.
-/

/-- Naive or offset-aware timestamp, modelling `datetime.datetime` values as
produced by `datetime.datetime.fromisoformat` / `strptime`.  `tzOffsetMinutes
= none` models a naive datetime; `some k` models a fixed UTC offset of `k`
minutes (Python aware datetimes with equal offsets compare equal). -/
structure PyDateTime where
  year : Nat
  month : Nat
  day : Nat
  hour : Nat
  minute : Nat
  second : Nat
  tzOffsetMinutes : Option Int
deriving DecidableEq, Repr

/-- Values flowing through the decoder: the JSON-derived Python values
(`null`, booleans, ints, floats, strings, lists, string-keyed dicts) plus
decoded `datetime` objects.  Python floats are modelled as rationals; the
decoder performs no float arithmetic, it only parses, stores and compares
them. -/
inductive JVal where
  | null
  | bool (b : Bool)
  | int (n : Int)
  | float (q : Rat)
  | str (s : String)
  | arr (elems : List JVal)
  | obj (entries : List (String × JVal))
  | dt (d : PyDateTime)

/-- Python exception classes relevant to the decoder. -/
inductive PyErr where
  | typeError
  | valueError
  | indexError
  | keyError
deriving DecidableEq, Repr

/-- Whether the exception is caught by the dispatcher's
`except (IndexError, ValueError, TypeError)` clause
(models.py:2213); `KeyError` is not in the tuple. -/
def PyErr.isCaught : PyErr → Bool
  | .keyError => false
  | _ => true

/-- Python `len(v)`: defined for strings, lists and dicts; other values
raise `TypeError`. -/
def pyLen : JVal → Except PyErr Nat
  | .str s => .ok s.length
  | .arr xs => .ok xs.length
  | .obj kvs => .ok kvs.length
  | _ => .error .typeError

/-- Python `v[i]` for a natural index `i`: list indexing (with
`IndexError` out of range), string indexing (yielding a one-character
string), dict indexing (a JSON-derived dict has string keys, so an integer
index raises `KeyError`); other values raise `TypeError`. -/
def pyGetItem (v : JVal) (i : Nat) : Except PyErr JVal :=
  match v with
  | .arr xs =>
      match xs.get? i with
      | some x => .ok x
      | none => .error .indexError
  | .str s =>
      match s.data.get? i with
      | some c => .ok (.str c.toString)
      | none => .error .indexError
  | .obj _ => .error .keyError
  | _ => .error .typeError

/-- Python iteration `for x in v`: lists yield their elements, strings
their characters (as one-character strings), dicts their keys; other
values raise `TypeError`. -/
def pyIter : JVal → Except PyErr (List JVal)
  | .arr xs => .ok xs
  | .str s => .ok (s.data.map (fun c => .str c.toString))
  | .obj kvs => .ok (kvs.map (fun kv => .str kv.1))
  | _ => .error .typeError

/-- Python truthiness of a value (`bool(v)` / `if v:`). -/
def pyTruthy : JVal → Bool
  | .null => false
  | .bool b => b
  | .int n => n != 0
  | .float q => q != 0
  | .str s => s != ""
  | .arr xs => !xs.isEmpty
  | .obj kvs => !kvs.isEmpty
  | .dt _ => true

/-- Check `value is None or value == ""` (models.py:63).  Under Python
equality only a string compares equal to `""`. -/
def isNoneOrEmptyStr : JVal → Bool
  | .null => true
  | .str s => s == ""
  | _ => false

/-- Python `x == 0` for the sentinel element check: numeric values
(ints, floats, booleans) compare by value; everything else is unequal
to `0`. -/
def pyEqZeroInt : JVal → Bool
  | .int n => n == 0
  | .float q => q == 0
  | .bool b => b == false
  | _ => false

/-- Python `data_entry == [0]` (models.py:2203): a one-element list whose
element compares equal to the integer `0`. -/
def eqPyListZero : JVal → Bool
  | .arr [x] => pyEqZeroInt x
  | _ => false

/-- Whitespace characters stripped by Python `str.strip()`. -/
def isPySpace (c : Char) : Bool :=
  c == ' ' || c == '\t' || c == '\n' || c == '\r' || c == '\x0b' || c == '\x0c'

/-- Strip leading and trailing whitespace from a character list. -/
def pyStrip (cs : List Char) : List Char :=
  ((cs.dropWhile isPySpace).reverse.dropWhile isPySpace).reverse

/-- Numeric value of a list of decimal digits. -/
def digitsToNat (cs : List Char) : Nat :=
  cs.foldl (fun a c => a * 10 + (c.toNat - 48)) 0

/-- Decimal integer literal accepted by Python `int(s)`: optional
surrounding whitespace, an optional sign and a nonempty digit run.
(Underscore digit grouping, also accepted by Python, is outside the
model.) -/
def pyParseInt (s : String) : Option Int :=
  let cs := pyStrip s.data
  match cs with
  | '+' :: rest =>
      if rest ≠ [] ∧ rest.all Char.isDigit then some (digitsToNat rest) else none
  | '-' :: rest =>
      if rest ≠ [] ∧ rest.all Char.isDigit then some (-(digitsToNat rest : Int)) else none
  | _ =>
      if cs ≠ [] ∧ cs.all Char.isDigit then some (digitsToNat cs) else none

/-- Unsigned decimal mantissa of a float literal: `digits`, `digits.`,
`digits.digits` or `.digits`. -/
def parseUnsignedDec (cs : List Char) : Option Rat :=
  let ip := cs.takeWhile Char.isDigit
  let rest := cs.dropWhile Char.isDigit
  match rest with
  | [] => if ip = [] then none else some (digitsToNat ip)
  | '.' :: fp =>
      if fp.all Char.isDigit ∧ (ip ≠ [] ∨ fp ≠ []) then
        some ((digitsToNat ip : Rat) + (digitsToNat fp : Rat) / ((10 : Rat) ^ fp.length))
      else none
  | _ => none

/-- Power of ten with integer exponent, written without `zpow` so that it
evaluates by kernel reduction. -/
def ratPow10 : Int → Rat
  | .ofNat n => (10 : Rat) ^ n
  | .negSucc n => 1 / (10 : Rat) ^ (n + 1)

/-- Decimal float literal accepted by Python `float(s)`: optional
surrounding whitespace and sign, a decimal mantissa and an optional
exponent part.  (The non-finite literals `inf`/`nan`, also accepted by
Python, are outside the model.) -/
def pyParseFloat (s : String) : Option Rat :=
  let cs := pyStrip s.data
  let sgn : Rat := match cs with | '-' :: _ => -1 | _ => 1
  let cs := match cs with | '+' :: r => r | '-' :: r => r | r => r
  let mant := cs.takeWhile (fun c => c ≠ 'e' ∧ c ≠ 'E')
  let expPart := cs.dropWhile (fun c => c ≠ 'e' ∧ c ≠ 'E')
  match expPart with
  | [] => (parseUnsignedDec mant).map (fun m => sgn * m)
  | _ :: ex =>
      let esgn : Int := match ex with | '-' :: _ => -1 | _ => 1
      let ed := match ex with | '+' :: r => r | '-' :: r => r | r => r
      if ed ≠ [] ∧ ed.all Char.isDigit then
        (parseUnsignedDec mant).map
          (fun m => sgn * m * ratPow10 (esgn * (digitsToNat ed : Int)))
      else none

/-- Truncation of a rational toward zero, as Python `int(float)`. -/
def ratTrunc (q : Rat) : Int :=
  if 0 ≤ q then q.floor else -(-q).floor

/-- Python `int(value)`: ints pass through, booleans become 0/1, floats
truncate toward zero, strings are parsed (`ValueError` on failure); other
values raise `TypeError`. -/
def pyInt : JVal → Except PyErr JVal
  | .int n => .ok (.int n)
  | .bool b => .ok (.int (if b then 1 else 0))
  | .float q => .ok (.int (ratTrunc q))
  | .str s =>
      match pyParseInt s with
      | some n => .ok (.int n)
      | none => .error .valueError
  | _ => .error .typeError

/-- Python `float(value)`: floats pass through, ints and booleans widen,
strings are parsed (`ValueError` on failure); other values raise
`TypeError`. -/
def pyFloat : JVal → Except PyErr JVal
  | .float q => .ok (.float q)
  | .int n => .ok (.float n)
  | .bool b => .ok (.float (if b then 1 else 0))
  | .str s =>
      match pyParseFloat s with
      | some q => .ok (.float q)
      | none => .error .valueError
  | _ => .error .typeError

/-- Parse exactly `n` decimal digits, accumulating their value. -/
def parseDigits : Nat → Nat → List Char → Option (Nat × List Char)
  | 0, acc, cs => some (acc, cs)
  | _ + 1, _, [] => none
  | n + 1, acc, c :: cs =>
      if c.isDigit then parseDigits n (acc * 10 + (c.toNat - 48)) cs else none

/-- Expect one specific character. -/
def expectChar (c : Char) : List Char → Option (List Char)
  | [] => none
  | x :: xs => if x = c then some xs else none

/-- Number of days in a month of the Gregorian calendar. -/
def daysInMonth (y mo : Nat) : Nat :=
  if mo = 1 ∨ mo = 3 ∨ mo = 5 ∨ mo = 7 ∨ mo = 8 ∨ mo = 10 ∨ mo = 12 then 31
  else if mo = 4 ∨ mo = 6 ∨ mo = 9 ∨ mo = 11 then 30
  else if (y % 4 = 0 ∧ y % 100 ≠ 0) ∨ y % 400 = 0 then 29
  else 28

/-- Valid calendar date within Python datetime range. -/
def validDate (y mo d : Nat) : Bool :=
  1 ≤ y ∧ y ≤ 9999 ∧ 1 ≤ mo ∧ mo ≤ 12 ∧ 1 ≤ d ∧ d ≤ daysInMonth y mo

/-- Trailing UTC-offset designator of an ISO-8601 timestamp: empty (naive),
`Z` (UTC, accepted by `fromisoformat` on Python 3.11+) or `±HH:MM`. -/
def parseTZ : List Char → Option (Option Int)
  | [] => some none
  | ['Z'] => some (some 0)
  | c :: cs =>
      if c = '+' ∨ c = '-' then
        match parseDigits 2 0 cs with
        | some (hh, cs1) =>
            match expectChar ':' cs1 with
            | some cs2 =>
                match parseDigits 2 0 cs2 with
                | some (mm, []) =>
                    if hh ≤ 23 ∧ mm ≤ 59 then
                      some (some ((if c = '-' then -1 else 1) * (hh * 60 + mm : Nat)))
                    else none
                | _ => none
            | none => none
        | none => none
      else none

/-- Time-of-day part `HH:MM[:SS]` followed by an optional UTC offset. -/
def parseTimePart (cs : List Char) : Option (Nat × Nat × Nat × Option Int) :=
  match parseDigits 2 0 cs with
  | none => none
  | some (hh, cs1) =>
      match expectChar ':' cs1 with
      | none => none
      | some cs2 =>
          match parseDigits 2 0 cs2 with
          | none => none
          | some (mm, cs3) =>
              let secAndRest : Option (Nat × List Char) :=
                match cs3 with
                | ':' :: cs4 => parseDigits 2 0 cs4
                | _ => some (0, cs3)
              match secAndRest with
              | none => none
              | some (ss, cs5) =>
                  match parseTZ cs5 with
                  | none => none
                  | some tz =>
                      if hh ≤ 23 ∧ mm ≤ 59 ∧ ss ≤ 59 then some (hh, mm, ss, tz)
                      else none

/-- Restricted model of Python 3.11+ `datetime.datetime.fromisoformat`,
covering the forms the service emits: `YYYY-MM-DD`, optionally followed by
`T` or a space and `HH:MM[:SS]`, optionally followed by `Z` or `±HH:MM`.
(Fractional seconds and the other extended ISO-8601 forms accepted by
Python are outside the model.) -/
def parseIsoDateTime (s : String) : Option PyDateTime :=
  match parseDigits 4 0 s.data with
  | none => none
  | some (y, cs1) =>
      match expectChar '-' cs1 with
      | none => none
      | some cs2 =>
          match parseDigits 2 0 cs2 with
          | none => none
          | some (mo, cs3) =>
              match expectChar '-' cs3 with
              | none => none
              | some cs4 =>
                  match parseDigits 2 0 cs4 with
                  | none => none
                  | some (d, cs5) =>
                      if !validDate y mo d then none
                      else
                        match cs5 with
                        | [] => some ⟨y, mo, d, 0, 0, 0, none⟩
                        | t :: cs6 =>
                            if t = 'T' ∨ t = ' ' then
                              match parseTimePart cs6 with
                              | some (hh, mm, ss, tz) => some ⟨y, mo, d, hh, mm, ss, tz⟩
                              | none => none
                            else none

/-- Python `datetime.datetime.fromisoformat(value)`: parses a string
(`ValueError` on failure), raises `TypeError` for non-strings. -/
def pyFromIso : JVal → Except PyErr JVal
  | .str s =>
      match parseIsoDateTime s with
      | some d => .ok (.dt d)
      | none => .error .valueError
  | _ => .error .typeError

/-- Strict `YYYY-MM-DD` date, as matched by
`datetime.datetime.strptime(value, "%Y-%m-%d")`; the result is a naive
datetime at midnight. -/
def parseDateYMD (s : String) : Option PyDateTime :=
  match parseDigits 4 0 s.data with
  | none => none
  | some (y, cs1) =>
      match expectChar '-' cs1 with
      | none => none
      | some cs2 =>
          match parseDigits 2 0 cs2 with
          | none => none
          | some (mo, cs3) =>
              match expectChar '-' cs3 with
              | none => none
              | some cs4 =>
                  match parseDigits 2 0 cs4 with
                  | some (d, []) =>
                      if validDate y mo d then some ⟨y, mo, d, 0, 0, 0, none⟩ else none
                  | _ => none

/-- Python `datetime.datetime.strptime(value, "%Y-%m-%d")`: `ValueError`
on a non-matching string, `TypeError` for non-strings. -/
def pyStrptimeDate : JVal → Except PyErr JVal
  | .str s =>
      match parseDateYMD s with
      | some d => .ok (.dt d)
      | none => .error .valueError
  | _ => .error .typeError

/-- Simplified decimal rendering of a Python float (Python shortest
round-trip `repr` is outside the model; no claim depends on the exact
digits of a float rendering). -/
def floatRepr (q : Rat) : String :=
  if q.den = 1 then toString q.num ++ ".0"
  else toString q.num ++ "/" ++ toString q.den

/-- ASCII single-quote character, used by Python `repr` of strings. -/
def sqChar : String := (Char.ofNat 39).toString

mutual

/-- Python `repr(v)` for the values of the model (container rendering
follows `repr` of lists/dicts; float digits are simplified, see
`floatRepr`). -/
def pyRepr : JVal → String
  | .null => "None"
  | .bool b => if b then "True" else "False"
  | .int n => toString n
  | .float q => floatRepr q
  | .str s => sqChar ++ s ++ sqChar
  | .arr xs => "[" ++ pyReprList xs ++ "]"
  | .obj kvs => "\x7b" ++ pyReprObj kvs ++ "\x7d"
  | .dt d => "datetime(" ++ toString d.year ++ "-" ++ toString d.month ++ "-" ++ toString d.day ++ ")"

/-- Comma-separated `repr` of list elements. -/
def pyReprList : List JVal → String
  | [] => ""
  | [x] => pyRepr x
  | x :: xs => pyRepr x ++ ", " ++ pyReprList xs

/-- Comma-separated `repr` of dict entries. -/
def pyReprObj : List (String × JVal) → String
  | [] => ""
  | [kv] => sqChar ++ kv.1 ++ sqChar ++ ": " ++ pyRepr kv.2
  | kv :: kvs => sqChar ++ kv.1 ++ sqChar ++ ": " ++ pyRepr kv.2 ++ ", " ++ pyReprObj kvs

end

/-- Python `str(value)`: identity on strings, `repr`-like rendering
otherwise. -/
def pyStrFn : JVal → String
  | .str s => s
  | .int n => toString n
  | .bool b => if b then "True" else "False"
  | .null => "None"
  | .float q => floatRepr q
  | v => pyRepr v

/-- Member of the `get_args` tuple of a declared field type, as inspected
by the `... in types` membership tests of `from_data_list_entry`
(models.py:74-92).  A bare non-union declaration such as `id: int` has an
empty `get_args` tuple. -/
inductive PyTy where
  | int
  | float
  | bool
  | str
  | datetime
  | date
  | noneType
deriving DecidableEq, Repr

/-- One dataclass field as seen by the decoder: its name, the `get_args`
tuple of its declared type (empty for a bare non-union type), and its
declared dataclass default (`none` models `MISSING`). -/
structure FieldDef where
  name : String
  types : List PyTy
  default : Option JVal

/-- Ordered field list of one registered model class (declaration order,
stable by PEP 520). -/
abbrev Schema := List FieldDef

/-- Collapse the decoder's inner `try ... except (ValueError, TypeError)`
(models.py:73-99): a failed conversion yields `None`.  The conversions
dispatched there raise only `ValueError` or `TypeError`, so every error is
absorbed. -/
def exceptToNull : Except PyErr JVal → JVal
  | .ok v => v
  | .error _ => .null

/-- Type-directed conversion of one non-null, non-empty raw value,
mirroring the `if`/`elif` chain of models.py:74-96 in order: `int`,
`datetime.datetime`, `datetime.date`, `float`, `bool`, `str`, else the
value unconverted.  The `str` branch models `str(value) if value else
None` (truthiness); the guards `if value is not None` of the other
branches are vacuous here because `None` was filtered at models.py:63. -/
def decodeFieldValue (types : List PyTy) (value : JVal) : JVal :=
  if types.contains .int then exceptToNull (pyInt value)
  else if types.contains .datetime then exceptToNull (pyFromIso value)
  else if types.contains .date then exceptToNull (pyStrptimeDate value)
  else if types.contains .float then exceptToNull (pyFloat value)
  else if types.contains .bool then .bool (pyTruthy value)
  else if types.contains .str then (if pyTruthy value then .str (pyStrFn value) else .null)
  else value

/-- Loop body of `from_data_list_entry` (models.py:53-99) over the field
list, carrying the running index and the pre-computed `len(data)`: a field
at an index beyond the data takes its declared default or `None`; otherwise
`data[index]` is fetched (which can raise), nulled if `None`/empty string,
else converted by `decodeFieldValue`. -/
def decodeFields (data : JVal) (n : Nat) : Nat → List FieldDef → Except PyErr (List (String × JVal))
  | _, [] => .ok []
  | i, fd :: rest =>
      if n ≤ i then
        match decodeFields data n (i + 1) rest with
        | .ok r => .ok ((fd.name, fd.default.getD .null) :: r)
        | .error e => .error e
      else
        match pyGetItem data i with
        | .error e => .error e
        | .ok value =>
            let v := if isNoneOrEmptyStr value then JVal.null
                     else decodeFieldValue fd.types value
            match decodeFields data n (i + 1) rest with
            | .ok r => .ok ((fd.name, v) :: r)
            | .error e => .error e

/-- Model of `DataListModel.from_data_list_entry` (models.py:28-101) for a
dataclass with the given field schema.  The record is the `kwargs` map in
field order; `cls(**kwargs)` on these plain dataclasses never raises.
`len(data)` is first evaluated inside the loop, so an empty field list
never touches `data`. -/
def from_data_list_entry (schema : Schema) (data : JVal) : Except PyErr (List (String × JVal)) :=
  match schema with
  | [] => .ok []
  | _ =>
      match pyLen data with
      | .error e => .error e
      | .ok n => decodeFields data n 0 schema

/-- One parsed model instance: the registry tag of its class and its
decoded field map. -/
structure Decoded where
  tag : String
  fields : List (String × JVal)

/-- Python `d.get(k)` on a JSON-derived dict. -/
def objLookup (kvs : List (String × JVal)) (k : String) : Option JVal :=
  (kvs.find? (fun kv => kv.1 == k)).map (fun kv => kv.2)

/-- Python `MODEL_REGISTRY.get(object_type)` (models.py:2195): string keys
look up the registry, other hashable values are simply absent, and an
unhashable key (list or dict) raises `TypeError`. -/
def registryGet (reg : List (String × Schema)) : JVal → Except PyErr (Option (String × Schema))
  | .str s => .ok (reg.find? (fun p => p.1 == s))
  | .arr _ => .error .typeError
  | .obj _ => .error .typeError
  | _ => .ok none

/-- Inner loop of `parse_data_list_response` over one batch
(models.py:2201-2214): `data_entry == [0]` entries are skipped; otherwise
the entry is decoded and appended, with `IndexError`/`ValueError`/
`TypeError` absorbed (skip the entry) and any other exception propagating.
The `hasattr(model_class, "from_data_list_entry")` guard holds for every
registered class. -/
def parseBatch (tag : String) (schema : Schema) : List JVal → Except PyErr (List Decoded)
  | [] => .ok []
  | d :: rest =>
      if eqPyListZero d then parseBatch tag schema rest
      else
        match from_data_list_entry schema d with
        | .ok r =>
            match parseBatch tag schema rest with
            | .ok l => .ok (⟨tag, r⟩ :: l)
            | .error e => .error e
        | .error e => if e.isCaught then parseBatch tag schema rest else .error e

/-- Handling of one envelope item (models.py:2188-2214): non-dicts and
dicts without a `"type"` key are skipped, an unregistered tag skips the
item, otherwise `response_item.get("data", [])` is iterated as the
batch. -/
def parseItem (reg : List (String × Schema)) (item : JVal) : Except PyErr (List Decoded) :=
  match item with
  | .obj kvs =>
      match objLookup kvs "type" with
      | none => .ok []
      | some tyVal =>
          match registryGet reg tyVal with
          | .error e => .error e
          | .ok none => .ok []
          | .ok (some (tag, schema)) =>
              match pyIter ((objLookup kvs "data").getD (.arr [])) with
              | .error e => .error e
              | .ok entries => parseBatch tag schema entries
  | _ => .ok []

/-- Outer loop of `parse_data_list_response` over the envelope items, in
order, accumulating each item's records. -/
def parseItems (reg : List (String × Schema)) : List JVal → Except PyErr (List Decoded)
  | [] => .ok []
  | item :: rest =>
      match parseItem reg item with
      | .error e => .error e
      | .ok rs =>
          match parseItems reg rest with
          | .ok more => .ok (rs ++ more)
          | .error e => .error e

/-- Model of `parse_data_list_response` (models.py:2174-2216),
parameterised by the registry; the Python function closes over the
module-level `MODEL_REGISTRY`. -/
def parse_data_list_response (reg : List (String × Schema)) (responseData : List JVal) :
    Except PyErr (List Decoded) :=
  parseItems reg responseData

/-- Field schema of the `Group` dataclass (models.py:1160-1211): every
field is declared `X | None` with default `None`. -/
def groupSchema : Schema :=
  [⟨"id", [.int, .noneType], some .null⟩,
   ⟨"name", [.str, .noneType], some .null⟩,
   ⟨"infotext", [.str, .noneType], some .null⟩,
   ⟨"count", [.int, .noneType], some .null⟩,
   ⟨"subgroup_count", [.int, .noneType], some .null⟩,
   ⟨"labels", [.str, .noneType], some .null⟩,
   ⟨"has_img", [.int, .noneType], some .null⟩,
   ⟨"has_tn", [.int, .noneType], some .null⟩]

/-- Field schema of the `Position` dataclass (models.py:1254-1357): most
fields are declared with bare non-union types (`int`, `float`, `str`),
whose `get_args` tuple is empty. -/
def positionSchema : Schema :=
  [⟨"id", [], some (.int 0)⟩,
   ⟨"amount", [], some (.float 0)⟩,
   ⟨"unit_name", [], some (.str "")⟩,
   ⟨"price", [], some (.float 0)⟩,
   ⟨"assortment_reference_id", [], some (.int 0)⟩,
   ⟨"deleted", [], some (.int 0)⟩,
   ⟨"pack_station", [.str, .noneType], some .null⟩,
   ⟨"pack_station_id", [], some (.int 0)⟩,
   ⟨"packed_late", [], some (.int 0)⟩,
   ⟨"driver_note", [.str, .noneType], some .null⟩,
   ⟨"box_name", [.str, .noneType], some (.str "")⟩,
   ⟨"delivered_amount", [], some (.float 0)⟩,
   ⟨"subscription_reference_id", [], some (.int 0)⟩,
   ⟨"discount", [], some (.int 0)⟩,
   ⟨"protection", [], some (.int 0)⟩,
   ⟨"note", [.str, .noneType], some .null⟩,
   ⟨"base_unit", [.str, .noneType], some .null⟩]

/-- Value the decoder assigns to the field at index `i` when the raw entry
is the array `xs`: the declared default (or null) past the end of `xs`,
otherwise the null-check followed by the type-directed conversion of
`xs[i]`.  The value of a field depends only on its own position. -/
def decodeFieldArr (xs : List JVal) (i : Nat) (fd : FieldDef) : JVal :=
  match xs.get? i with
  | none => fd.default.getD .null
  | some v => if isNoneOrEmptyStr v then .null else decodeFieldValue fd.types v

/-- Pure form of the decode loop on an array entry, starting at index
`i`. -/
def decodePure (xs : List JVal) : Nat → List FieldDef → List (String × JVal)
  | _, [] => []
  | i, fd :: rest => (fd.name, decodeFieldArr xs i fd) :: decodePure xs (i + 1) rest

theorem decodeFields_arr (xs : List JVal) :
    ∀ (S : List FieldDef) (i : Nat),
      decodeFields (.arr xs) xs.length i S = .ok (decodePure xs i S) := by
  intro S
  induction S with
  | nil => intro i; rfl
  | cons fd rest ih =>
      intro i
      by_cases h : xs.length ≤ i
      · simp only [decodeFields, if_pos h, ih, decodePure, decodeFieldArr,
          List.get?_eq_none.mpr h]
      · have h' : i < xs.length := Nat.lt_of_not_le h
        simp only [decodeFields, if_neg h, pyGetItem, List.get?_eq_get h', ih,
          decodePure, decodeFieldArr]

theorem from_data_list_entry_arr (S : Schema) (xs : List JVal) :
    from_data_list_entry S (.arr xs) = .ok (decodePure xs 0 S) := by
  cases S with
  | nil => rfl
  | cons fd rest =>
      show decodeFields (.arr xs) xs.length 0 (fd :: rest) = _
      exact decodeFields_arr xs (fd :: rest) 0

theorem decodePure_get? (xs : List JVal) :
    ∀ (S : List FieldDef) (i j : Nat),
      (decodePure xs i S).get? j
        = (S.get? j).map (fun fd => (fd.name, decodeFieldArr xs (i + j) fd)) := by
  intro S
  induction S with
  | nil => intro i j; simp [decodePure]
  | cons fd rest ih =>
      intro i j
      cases j with
      | zero => simp [decodePure]
      | succ j =>
          have hidx : i + (j + 1) = i + 1 + j := by omega
          show ((fd.name, decodeFieldArr xs i fd) :: decodePure xs (i + 1) rest).get? (j + 1) = _
          rw [List.get?_cons_succ, ih (i + 1) j, List.get?_cons_succ, hidx]

theorem decodePure_congr (xs ys : List JVal) :
    ∀ (S : List FieldDef) (i : Nat),
      (∀ j, j < S.length → xs.get? (i + j) = ys.get? (i + j)) →
      decodePure xs i S = decodePure ys i S := by
  intro S
  induction S with
  | nil => intro i _; rfl
  | cons fd rest ih =>
      intro i h
      have h0 : xs.get? i = ys.get? i := by
        have := h 0 (by simp)
        simpa using this
      have hrest : ∀ j, j < rest.length → xs.get? (i + 1 + j) = ys.get? (i + 1 + j) := by
        intro j hj
        have := h (j + 1) (by simp; omega)
        have hidx : i + (j + 1) = i + 1 + j := by omega
        rwa [hidx] at this
      have hfd : decodeFieldArr xs i fd = decodeFieldArr ys i fd := by
        unfold decodeFieldArr
        rw [h0]
      simp only [decodePure, hfd, ih (i + 1) hrest]

theorem parseBatch_append (tag : String) (schema : Schema) :
    ∀ (b1 b2 : List JVal),
      parseBatch tag schema (b1 ++ b2)
        = match parseBatch tag schema b1 with
          | .ok l1 => (parseBatch tag schema b2).map (fun l2 => l1 ++ l2)
          | .error e => .error e := by
  intro b1 b2
  induction b1 with
  | nil =>
      simp only [List.nil_append, parseBatch]
      cases parseBatch tag schema b2 <;> rfl
  | cons d rest ih =>
      simp only [List.cons_append, parseBatch]
      by_cases hz : eqPyListZero d
      · simp [hz, ih]
      · simp only [hz, Bool.false_eq_true, if_false]
        cases hdec : from_data_list_entry schema d with
        | ok r =>
            simp only [List.append_eq, ih]
            cases h1 : parseBatch tag schema rest with
            | ok l1 =>
                cases h2 : parseBatch tag schema b2 with
                | ok l2 => simp [Except.map]
                | error e2 => simp [Except.map]
            | error e1 => simp
        | error e =>
            by_cases hc : e.isCaught
            · simp [hc, ih, List.append_eq]
            · simp [hc]

theorem parseItems_cons (reg : List (String × Schema)) (item : JVal) (rest : List JVal) :
    parseItems reg (item :: rest)
      = match parseItem reg item with
        | .ok rs => (parseItems reg rest).map (fun more => rs ++ more)
        | .error e => .error e := by
  simp only [parseItems]
  cases parseItem reg item with
  | ok rs => cases parseItems reg rest <;> rfl
  | error e => rfl

theorem parseItems_append (reg : List (String × Schema)) :
    ∀ (l1 l2 : List JVal),
      parseItems reg (l1 ++ l2)
        = match parseItems reg l1 with
          | .ok r1 => (parseItems reg l2).map (fun r2 => r1 ++ r2)
          | .error e => .error e := by
  intro l1 l2
  induction l1 with
  | nil =>
      simp only [List.nil_append, parseItems]
      cases parseItems reg l2 <;> rfl
  | cons item rest ih =>
      simp only [List.cons_append, parseItems]
      cases hitem : parseItem reg item with
      | ok rs =>
          simp only [List.append_eq, ih]
          cases h1 : parseItems reg rest with
          | ok r1 =>
              cases h2 : parseItems reg l2 with
              | ok r2 => simp [Except.map, List.append_assoc]
              | error e2 => simp [Except.map]
          | error e1 => simp
      | error e => rfl

theorem decodePure_get_zero (xs : List JVal) (S : Schema) (i : Nat) :
    (decodePure xs 0 S).get? i
      = (S.get? i).map (fun fd => (fd.name, decodeFieldArr xs i fd)) := by
  have h := decodePure_get? xs S 0 i
  simpa using h

/-- C5: for every schema `S` and raw array `r` with `len(r) ≤ len(S)`,
decoding does not raise, the first `len(r)` fields are decoded from their
positions, and every field at an index `≥ len(r)` equals its declared
default, or null if it declares none. -/
theorem claim5_short_array_defaults (S : Schema) (xs : List JVal)
    (hlen : xs.length ≤ S.length) :
    ∃ r, from_data_list_entry S (.arr xs) = .ok r ∧
      (∀ i fd v, S.get? i = some fd → xs.get? i = some v →
        r.get? i = some (fd.name,
          if isNoneOrEmptyStr v then JVal.null else decodeFieldValue fd.types v)) ∧
      (∀ i fd, S.get? i = some fd → xs.length ≤ i →
        r.get? i = some (fd.name, fd.default.getD JVal.null)) := by
  refine ⟨decodePure xs 0 S, from_data_list_entry_arr S xs, ?_, ?_⟩
  · intro i fd v hS hx
    rw [decodePure_get_zero, hS]
    simp only [Option.map_some']
    unfold decodeFieldArr
    rw [hx]
  · intro i fd hS hi
    rw [decodePure_get_zero, hS]
    simp only [Option.map_some']
    unfold decodeFieldArr
    rw [List.get?_eq_none.mpr hi]

/-- C6: for every schema `S` and raw arrays strictly longer than `S`,
decoding does not raise and only the first `len(S)` positions are
consulted: two raw arrays agreeing on those positions decode to the same
record. -/
theorem claim6_long_array_ignores_surplus (S : Schema) (xs ys : List JVal)
    (hx : S.length < xs.length) (hy : S.length < ys.length)
    (hagree : ∀ i, i < S.length → xs.get? i = ys.get? i) :
    ∃ r, from_data_list_entry S (.arr xs) = .ok r ∧
         from_data_list_entry S (.arr ys) = .ok r := by
  refine ⟨decodePure xs 0 S, from_data_list_entry_arr S xs, ?_⟩
  rw [from_data_list_entry_arr S ys]
  have h : decodePure xs 0 S = decodePure ys 0 S := by
    apply decodePure_congr
    intro j hj
    simpa using hagree j hj
  rw [h]

/-- C2: decoding the raw string `"2023-12-25T10:00:00Z"` into a field of
declared type `datetime.datetime | None` yields the timestamp
2023-12-25 10:00:00 at UTC offset 0 — the same value
`fromisoformat("2023-12-25T10:00:00+00:00")` produces — rather than being
unparsable. -/
theorem claim2_datetime_z_normalized (S : Schema) (xs : List JVal) (i : Nat)
    (fd : FieldDef)
    (hfd : S.get? i = some fd)
    (hty : fd.types = [PyTy.datetime, PyTy.noneType])
    (hx : xs.get? i = some (.str "2023-12-25T10:00:00Z")) :
    ∃ r, from_data_list_entry S (.arr xs) = .ok r ∧
      r.get? i = some (fd.name, .dt ⟨2023, 12, 25, 10, 0, 0, some 0⟩) ∧
      pyFromIso (.str "2023-12-25T10:00:00+00:00")
        = .ok (.dt ⟨2023, 12, 25, 10, 0, 0, some 0⟩) := by
  refine ⟨decodePure xs 0 S, from_data_list_entry_arr S xs, ?_, rfl⟩
  rw [decodePure_get_zero, hfd]
  simp only [Option.map_some']
  unfold decodeFieldArr
  rw [hx, hty]
  rfl

/-- C8: a raw string value that parses neither as an integer nor as a
float, supplied to a field of declared type `int | None` or
`float | None`, is nulled, the decode of the record does not raise, and
every other field is decoded from its own position by the same
position-local rule. -/
theorem claim8_coercion_failure_nulls_one_field (S : Schema) (xs : List JVal)
    (i : Nat) (fd : FieldDef) (s : String)
    (hfd : S.get? i = some fd)
    (hty : fd.types = [PyTy.int, PyTy.noneType] ∨ fd.types = [PyTy.float, PyTy.noneType])
    (hx : xs.get? i = some (.str s))
    (hne : (s == "") = false)
    (hint : pyParseInt s = none)
    (hfl : pyParseFloat s = none) :
    ∃ r, from_data_list_entry S (.arr xs) = .ok r ∧
      r.get? i = some (fd.name, JVal.null) ∧
      (∀ j fdj, j ≠ i → S.get? j = some fdj →
        r.get? j = some (fdj.name, decodeFieldArr xs j fdj)) := by
  refine ⟨decodePure xs 0 S, from_data_list_entry_arr S xs, ?_, ?_⟩
  · rw [decodePure_get_zero, hfd]
    simp only [Option.map_some']
    unfold decodeFieldArr
    rw [hx]
    simp only [isNoneOrEmptyStr, hne, Bool.false_eq_true, if_false]
    cases hty with
    | inl h =>
        simp [decodeFieldValue, h, exceptToNull, pyInt, hint]
    | inr h =>
        simp [decodeFieldValue, h, exceptToNull, pyFloat, hfl]
  · intro j fdj _ hS
    rw [decodePure_get_zero, hS]
    rfl

/-- C10: a field whose declared type is a bare non-union type (empty
`get_args` tuple, as for `Position.id : int` and
`Position.amount : float`) receives any non-null, non-empty raw value
unconverted. -/
theorem claim10_bare_type_passthrough :
    (∀ (S : Schema) (xs : List JVal) (i : Nat) (fd : FieldDef) (v : JVal),
      S.get? i = some fd → fd.types = [] → xs.get? i = some v →
      isNoneOrEmptyStr v = false →
      ∃ r, from_data_list_entry S (.arr xs) = .ok r ∧
        r.get? i = some (fd.name, v)) ∧
    positionSchema.get? 0 = some ⟨"id", [], some (.int 0)⟩ ∧
    positionSchema.get? 1 = some ⟨"amount", [], some (.float 0)⟩ := by
  refine ⟨?_, rfl, rfl⟩
  intro S xs i fd v hfd hty hx hv
  refine ⟨decodePure xs 0 S, from_data_list_entry_arr S xs, ?_⟩
  rw [decodePure_get_zero, hfd]
  simp only [Option.map_some']
  unfold decodeFieldArr
  rw [hx, hty]
  simp [hv, decodeFieldValue]

theorem parseBatch_skip_sentinel (tag : String) (schema : Schema) (t : JVal)
    (ht : eqPyListZero t = true) :
    ∀ (l1 l2 : List JVal),
      parseBatch tag schema (l1 ++ t :: l2) = parseBatch tag schema (l1 ++ l2) := by
  intro l1 l2
  induction l1 with
  | nil => simp [parseBatch, ht]
  | cons d rest ih => simp only [List.cons_append, List.append_eq, parseBatch, ih]

theorem parseItem_typed (reg : List (String × Schema)) (tag : String) (B : List JVal) :
    parseItem reg (.obj [("type", .str tag), ("data", .arr B)])
      = match reg.find? (fun p => p.1 == tag) with
        | some (tg, sch) => parseBatch tg sch B
        | none => .ok [] := by
  cases hfind : reg.find? (fun p => p.1 == tag) with
  | none => simp [parseItem, objLookup, registryGet, hfind, pyIter]
  | some p =>
      cases p with
      | mk tg sch => simp [parseItem, objLookup, registryGet, hfind, pyIter]

/-- C1 (amended): for every envelope entry whose tag is registered, every
raw entry that compares Python-equal to `[0]` is skipped, never decoded,
and contributes nothing to the output of `parse_data_list_response`; only
the `[0]` form is a sentinel (`[-1]` is decoded as an ordinary record, see
the counterexample). -/
theorem claim1_zero_terminator_only (reg : List (String × Schema))
    (tag : String) (schema : Schema)
    (hreg : reg.find? (fun p => p.1 == tag) = some (tag, schema))
    (pre post l1 l2 : List JVal) (t : JVal)
    (ht : eqPyListZero t = true) :
    parse_data_list_response reg
        (pre ++ (JVal.obj [("type", .str tag), ("data", .arr (l1 ++ t :: l2))]) :: post)
      = parse_data_list_response reg
        (pre ++ (JVal.obj [("type", .str tag), ("data", .arr (l1 ++ l2))]) :: post) := by
  show parseItems reg _ = parseItems reg _
  rw [parseItems_append, parseItems_append, parseItems_cons, parseItems_cons,
    parseItem_typed, parseItem_typed, hreg]
  simp only [parseBatch_skip_sentinel tag schema t ht l1 l2]

/-- C1 counterexample: in an envelope entry under the registered tag
`Group`, the one-element raw array `[-1]` is not treated as a terminator
sentinel; it is decoded into a record (with `id = -1` and all remaining
fields defaulted), contradicting the claim that it contributes nothing to
the output. -/
theorem claim1_counterexample :
    parse_data_list_response [("Group", groupSchema)]
        [.obj [("type", .str "Group"), ("data", .arr [.arr [.int (-1)]])]]
      = .ok [⟨"Group", [("id", .int (-1)), ("name", .null), ("infotext", .null),
          ("count", .null), ("subgroup_count", .null), ("labels", .null),
          ("has_img", .null), ("has_tn", .null)]⟩] := rfl

/-- C3: behaviour of the dispatcher on a batch holding one structurally
malformed raw entry between two valid ones.  A JSON-object entry makes the
whole parse raise `KeyError` (models.py catches only `IndexError`,
`ValueError` and `TypeError` at models.py:2213, so the integer indexing of
the dict at models.py:61 escapes), and a string entry is iterated
character-wise into a spurious third record — in both cases contradicting
the claim that exactly the two valid records are returned and nothing is
raised. -/
theorem claim3_malformed_entry_behavior :
    parse_data_list_response [("Group", groupSchema)]
        [.obj [("type", .str "Group"),
               ("data", .arr [.arr [.int 1, .str "Fruits", .str "Fresh fruits", .int 25],
                              .obj [("a", .int 1)],
                              .arr [.int 2, .str "Vegetables", .str "x", .int 10]])]]
      = .error .keyError ∧
    parse_data_list_response [("Group", groupSchema)]
        [.obj [("type", .str "Group"),
               ("data", .arr [.arr [.int 1, .str "Fruits", .str "Fresh fruits", .int 25],
                              .str "ab",
                              .arr [.int 2, .str "Vegetables", .str "x", .int 10]])]]
      = .ok [⟨"Group", [("id", .int 1), ("name", .str "Fruits"),
                ("infotext", .str "Fresh fruits"), ("count", .int 25),
                ("subgroup_count", .null), ("labels", .null),
                ("has_img", .null), ("has_tn", .null)]⟩,
             ⟨"Group", [("id", .null), ("name", .str "b"), ("infotext", .null),
                ("count", .null), ("subgroup_count", .null), ("labels", .null),
                ("has_img", .null), ("has_tn", .null)]⟩,
             ⟨"Group", [("id", .int 2), ("name", .str "Vegetables"),
                ("infotext", .str "x"), ("count", .int 10),
                ("subgroup_count", .null), ("labels", .null),
                ("has_img", .null), ("has_tn", .null)]⟩] := ⟨rfl, rfl⟩

/-- C7: an envelope entry whose type tag is not in the registry
contributes zero records and leaves the parse of the rest of the envelope
unchanged: the unknown tag skips only its own batch, never the rest of the
envelope. -/
theorem claim7_unregistered_tag_skips_only_itself (reg : List (String × Schema))
    (pre post : List JVal) (kvs : List (String × JVal)) (tag : String)
    (hty : objLookup kvs "type" = some (.str tag))
    (hreg : reg.find? (fun p => p.1 == tag) = none) :
    parse_data_list_response reg (pre ++ (JVal.obj kvs) :: post)
      = parse_data_list_response reg (pre ++ post) := by
  show parseItems reg _ = parseItems reg _
  rw [parseItems_append, parseItems_append, parseItems_cons]
  have hitem : parseItem reg (.obj kvs) = .ok [] := by
    simp [parseItem, hty, registryGet, hreg]
  rw [hitem]
  cases h1 : parseItems reg pre with
  | ok r1 =>
      cases h2 : parseItems reg post with
      | ok r2 => simp [Except.map]
      | error e2 => simp [Except.map]
  | error e1 => rfl

/-- C9: the output of `parse_data_list_response` is the strict
concatenation, in envelope order, of the records of each entry
(splitting the envelope anywhere splits the output accordingly, and a
single entry contributes exactly its own records), and within one entry
the records follow batch order (splitting the batch anywhere splits that
entry's records accordingly): records are never interleaved across
entries and never reordered. -/
theorem claim9_concatenation_order :
    (∀ (reg : List (String × Schema)) (l1 l2 : List JVal),
        parse_data_list_response reg (l1 ++ l2)
          = match parse_data_list_response reg l1 with
            | .ok r1 => (parse_data_list_response reg l2).map (fun r2 => r1 ++ r2)
            | .error e => .error e) ∧
    (∀ (reg : List (String × Schema)) (item : JVal) (rest : List JVal),
        parse_data_list_response reg (item :: rest)
          = match parseItem reg item with
            | .ok rs => (parse_data_list_response reg rest).map (fun more => rs ++ more)
            | .error e => .error e) ∧
    (∀ (tag : String) (schema : Schema) (b1 b2 : List JVal),
        parseBatch tag schema (b1 ++ b2)
          = match parseBatch tag schema b1 with
            | .ok l1 => (parseBatch tag schema b2).map (fun l2 => l1 ++ l2)
            | .error e => .error e) :=
  ⟨fun reg l1 l2 => parseItems_append reg l1 l2,
   fun reg item rest => parseItems_cons reg item rest,
   fun tag schema b1 b2 => parseBatch_append tag schema b1 b2⟩

/-- C4 counterexample: the raw integer `0` supplied to the `String`-typed
field `name` of `Group` (declared `str | None`) decodes to null, although
its stringification `"0"` is non-empty — contradicting the claim that the
field is null exactly when the stringified result is empty and that `0`
decodes to `"0"`. -/
theorem claim4_counterexample :
    from_data_list_entry groupSchema (.arr [.int 1, .int 0])
      = .ok [("id", .int 1), ("name", .null), ("infotext", .null), ("count", .null),
             ("subgroup_count", .null), ("labels", .null), ("has_img", .null),
             ("has_tn", .null)] ∧
    pyStrFn (.int 0) = "0" := ⟨rfl, rfl⟩

/-- C4 (amended): a non-null, non-empty-string raw value `v` supplied to a
field of declared type `str | None` decodes to the stringification of `v`
when `v` is truthy and to null when `v` is falsy (Python truthiness, per
`str(value) if value else None` at models.py:92); in particular the
numeric value `0` decodes to null even though `str(0)` is non-empty. -/
theorem claim4_string_truthiness (S : Schema) (xs : List JVal) (i : Nat)
    (fd : FieldDef) (v : JVal)
    (hfd : S.get? i = some fd)
    (hty : fd.types = [PyTy.str, PyTy.noneType])
    (hx : xs.get? i = some v)
    (hv : isNoneOrEmptyStr v = false) :
    ∃ r, from_data_list_entry S (.arr xs) = .ok r ∧
      r.get? i = some (fd.name,
        if pyTruthy v then JVal.str (pyStrFn v) else JVal.null) := by
  refine ⟨decodePure xs 0 S, from_data_list_entry_arr S xs, ?_⟩
  rw [decodePure_get_zero, hfd]
  simp only [Option.map_some']
  unfold decodeFieldArr
  rw [hx, hty]
  simp [hv, decodeFieldValue]

theorem claim1_witness :
    eqPyListZero (.arr [.int 0]) = true ∧
    parse_data_list_response [("Group", groupSchema)]
        [.obj [("type", .str "Group"),
               ("data", .arr [.arr [.int 1, .str "Fruits"], .arr [.int 0]])]]
      = parse_data_list_response [("Group", groupSchema)]
        [.obj [("type", .str "Group"),
               ("data", .arr [.arr [.int 1, .str "Fruits"]])]] :=
  ⟨rfl, claim1_zero_terminator_only [("Group", groupSchema)] "Group" groupSchema rfl
      [] [] [JVal.arr [JVal.int 1, JVal.str "Fruits"]] [] (JVal.arr [JVal.int 0]) rfl⟩

theorem claim2_witness :
    ([⟨"dt", [PyTy.datetime, PyTy.noneType], some JVal.null⟩] : Schema).get? 0
        = some ⟨"dt", [PyTy.datetime, PyTy.noneType], some JVal.null⟩ ∧
    ∃ r, from_data_list_entry [⟨"dt", [PyTy.datetime, PyTy.noneType], some JVal.null⟩]
          (.arr [.str "2023-12-25T10:00:00Z"]) = .ok r ∧
      r.get? 0 = some ("dt", .dt ⟨2023, 12, 25, 10, 0, 0, some 0⟩) ∧
      pyFromIso (.str "2023-12-25T10:00:00+00:00")
        = .ok (.dt ⟨2023, 12, 25, 10, 0, 0, some 0⟩) :=
  ⟨rfl, claim2_datetime_z_normalized
      [⟨"dt", [PyTy.datetime, PyTy.noneType], some JVal.null⟩]
      [JVal.str "2023-12-25T10:00:00Z"] 0
      ⟨"dt", [PyTy.datetime, PyTy.noneType], some JVal.null⟩ rfl rfl rfl⟩

theorem claim4_witness :
    groupSchema.get? 1 = some ⟨"name", [PyTy.str, PyTy.noneType], some JVal.null⟩ ∧
    isNoneOrEmptyStr (.int 0) = false ∧
    ∃ r, from_data_list_entry groupSchema (.arr [.int 1, .int 0]) = .ok r ∧
      r.get? 1 = some ("name",
        if pyTruthy (.int 0) then JVal.str (pyStrFn (.int 0)) else JVal.null) :=
  ⟨rfl, rfl, claim4_string_truthiness groupSchema [JVal.int 1, JVal.int 0] 1
      ⟨"name", [PyTy.str, PyTy.noneType], some JVal.null⟩ (JVal.int 0) rfl rfl rfl rfl⟩

theorem claim5_witness :
    ([JVal.int 2, JVal.str "Vegetables"] : List JVal).length ≤ groupSchema.length ∧
    ∃ r, from_data_list_entry groupSchema (.arr [.int 2, .str "Vegetables"]) = .ok r ∧
      (∀ i fd v, groupSchema.get? i = some fd →
        ([JVal.int 2, JVal.str "Vegetables"] : List JVal).get? i = some v →
        r.get? i = some (fd.name,
          if isNoneOrEmptyStr v then JVal.null else decodeFieldValue fd.types v)) ∧
      (∀ i fd, groupSchema.get? i = some fd →
        ([JVal.int 2, JVal.str "Vegetables"] : List JVal).length ≤ i →
        r.get? i = some (fd.name, fd.default.getD JVal.null)) :=
  ⟨by decide, claim5_short_array_defaults groupSchema [JVal.int 2, JVal.str "Vegetables"]
      (by decide)⟩

theorem claim6_witness :
    groupSchema.length
        < ([JVal.int 1, JVal.str "a", JVal.str "b", JVal.int 2, JVal.int 3,
            JVal.str "c", JVal.int 4, JVal.int 5, JVal.int 99] : List JVal).length ∧
    ∃ r, from_data_list_entry groupSchema
          (.arr [.int 1, .str "a", .str "b", .int 2, .int 3,
                 .str "c", .int 4, .int 5, .int 99]) = .ok r ∧
         from_data_list_entry groupSchema
          (.arr [.int 1, .str "a", .str "b", .int 2, .int 3,
                 .str "c", .int 4, .int 5, .str "x"]) = .ok r :=
  ⟨by decide, claim6_long_array_ignores_surplus groupSchema
      [JVal.int 1, JVal.str "a", JVal.str "b", JVal.int 2, JVal.int 3,
       JVal.str "c", JVal.int 4, JVal.int 5, JVal.int 99]
      [JVal.int 1, JVal.str "a", JVal.str "b", JVal.int 2, JVal.int 3,
       JVal.str "c", JVal.int 4, JVal.int 5, JVal.str "x"]
      (by decide) (by decide)
      (by
        intro i hi
        have h8 : i < 8 := hi
        interval_cases i <;> rfl)⟩

theorem claim7_witness :
    objLookup [("type", JVal.str "UnknownThing"), ("data", JVal.arr [JVal.arr [JVal.int 9]])]
        "type" = some (.str "UnknownThing") ∧
    ([("Group", groupSchema)] : List (String × Schema)).find?
        (fun p => p.1 == "UnknownThing") = none ∧
    parse_data_list_response [("Group", groupSchema)]
        [.obj [("type", .str "UnknownThing"), ("data", .arr [.arr [.int 9]])],
         .obj [("type", .str "Group"),
               ("data", .arr [.arr [.int 1, .str "Fruits"], .arr [.int 0]])]]
      = parse_data_list_response [("Group", groupSchema)]
        [.obj [("type", .str "Group"),
               ("data", .arr [.arr [.int 1, .str "Fruits"], .arr [.int 0]])]] :=
  ⟨rfl, rfl, claim7_unregistered_tag_skips_only_itself [("Group", groupSchema)]
      []
      [JVal.obj [("type", JVal.str "Group"),
                 ("data", JVal.arr [JVal.arr [JVal.int 1, JVal.str "Fruits"],
                                    JVal.arr [JVal.int 0]])]]
      [("type", JVal.str "UnknownThing"), ("data", JVal.arr [JVal.arr [JVal.int 9]])]
      "UnknownThing" rfl rfl⟩

theorem claim8_witness :
    groupSchema.get? 3 = some ⟨"count", [PyTy.int, PyTy.noneType], some JVal.null⟩ ∧
    pyParseInt "abc" = none ∧ pyParseFloat "abc" = none ∧
    ∃ r, from_data_list_entry groupSchema
          (.arr [.int 1, .str "Fruits", .str "Fresh", .str "abc"]) = .ok r ∧
      r.get? 3 = some ("count", JVal.null) ∧
      (∀ j fdj, j ≠ 3 → groupSchema.get? j = some fdj →
        r.get? j = some (fdj.name,
          decodeFieldArr [JVal.int 1, JVal.str "Fruits", JVal.str "Fresh", JVal.str "abc"]
            j fdj)) :=
  ⟨rfl, rfl, rfl, claim8_coercion_failure_nulls_one_field groupSchema
      [JVal.int 1, JVal.str "Fruits", JVal.str "Fresh", JVal.str "abc"] 3
      ⟨"count", [PyTy.int, PyTy.noneType], some JVal.null⟩ "abc"
      rfl (Or.inl rfl) rfl rfl rfl rfl⟩

theorem claim10_witness :
    positionSchema.get? 0 = some ⟨"id", [], some (.int 0)⟩ ∧
    isNoneOrEmptyStr (.str "42") = false ∧
    ∃ r, from_data_list_entry positionSchema (.arr [.str "42"]) = .ok r ∧
      r.get? 0 = some ("id", .str "42") :=
  ⟨rfl, rfl, claim10_bare_type_passthrough.1 positionSchema [JVal.str "42"] 0
      ⟨"id", [], some (.int 0)⟩ (JVal.str "42") rfl rfl rfl rfl⟩
